import Mathlib

/-!
Verification of the Snowflake AISQL action core (`src/snowflake-aisql.ts`):
argument normalization and SQL query-text construction for the Cortex AI
functions.

The embedding works at the level of already-parsed JSON values: the raw
`JSON.parse` step (a JavaScript builtin) is elided and every normalizer takes
the parsed argument object directly.  Modelling conventions, applied uniformly:

* a JSON value is a `Json`; a parsed JSON object (`Record<string, unknown>`)
  is its field list `JsObj` (keys assumed distinct, insertion order kept);
* a field that is absent in JavaScript (`undefined`) is `Option.none`; a field
  bound to JSON `null` is `some Json.null` — the source distinguishes the two;
* `a ?? b` is `jsCoalesce` (`null` and `undefined` both fall through);
* JavaScript string truthiness (`if (s)`) is the test `s ≠ ""`;
* `String.prototype.trim`, `toUpperCase`, `toLowerCase` are modelled on the
  ASCII fragment actually exercised by the action (`jsTrim`, `jsUpper`,
  `jsLower`), with `.length` counted in characters;
* functions that `throw new Error(msg)` return `Except String` carrying the
  exact message text.
-/

set_option autoImplicit false

namespace AiSql

/-- A JSON value, as produced by `JSON.parse` (numbers restricted to integers,
which is all the repository's validation logic ever distinguishes). -/
inductive Json where
  | null : Json
  | bool : Bool → Json
  | num : Int → Json
  | str : String → Json
  | arr : List Json → Json
  | obj : List (String × Json) → Json

/-- A parsed JSON object: its ordered field list. -/
abbrev JsObj := List (String × Json)

/-- Whitespace recognised by the model of `String.prototype.trim`. -/
def isJsWs (c : Char) : Bool :=
  c == ' ' || c == '\t' || c == '\n' || c == '\r' || c == '\x0b' || c == '\x0c'

/-- Drop leading then trailing whitespace from a character list. -/
def jsTrimList (l : List Char) : List Char :=
  (((l.dropWhile isJsWs).reverse).dropWhile isJsWs).reverse

/-- Model of `String.prototype.trim`. -/
def jsTrim (s : String) : String := String.mk (jsTrimList s.data)

/-- Model of `String.prototype.toUpperCase` (ASCII fragment). -/
def jsUpper (s : String) : String := String.mk (s.data.map Char.toUpper)

/-- Model of `String.prototype.toLowerCase` (ASCII fragment). -/
def jsLower (s : String) : String := String.mk (s.data.map Char.toLower)

/-- Model of `String.prototype.startsWith`. -/
def jsStartsWith (s pre : String) : Bool := pre.data.isPrefixOf s.data

/-- The quote-doubling step of `toSqlString`: every `'` becomes `''`. -/
def escapeQuotes : List Char → List Char
  | [] => []
  | c :: rest =>
    (if c = '\'' then ['\'', '\''] else [c]) ++ escapeQuotes rest

/-- `toSqlString` — the Value Escaper: double embedded single quotes, then
wrap the value in single quotes. -/
def toSqlString (value : String) : String :=
  "'" ++ String.mk (escapeQuotes value.data) ++ "'"

/-- Inverse of the quote doubling: collapse each doubled `''` back to `'`.
Used to state the escaping round-trip property. -/
def undouble : List Char → List Char
  | [] => []
  | [c] => [c]
  | c₁ :: c₂ :: rest =>
    if c₁ = '\'' ∧ c₂ = '\'' then '\'' :: undouble rest
    else c₁ :: undouble (c₂ :: rest)

/-- Model of `Array.prototype.join(', ')`, used for SQL argument lists and for
key lists in error messages. -/
def joinArgs : List String → String
  | [] => ""
  | [a] => a
  | a :: b :: rest => a ++ ", " ++ joinArgs (b :: rest)

/-- Model of `Array.prototype.join(',')` (compact, for `JSON.stringify`). -/
def joinComma : List String → String
  | [] => ""
  | [a] => a
  | a :: b :: rest => a ++ "," ++ joinComma (b :: rest)

/-- JSON string escaping used by the model of `JSON.stringify` (quotes and
backslashes; the payloads exercised here contain no control characters). -/
def jsonEscape : List Char → List Char
  | [] => []
  | c :: rest =>
    (if c = '"' then ['\\', '"'] else if c = '\\' then ['\\', '\\'] else [c])
      ++ jsonEscape rest

mutual

/-- Model of `JSON.stringify` (compact form, no spacing). -/
def Json.stringify : Json → String
  | .null => "null"
  | .bool true => "true"
  | .bool false => "false"
  | .num n => toString n
  | .str s => "\"" ++ String.mk (jsonEscape s.data) ++ "\""
  | .arr xs => "[" ++ stringifyElems xs ++ "]"
  | .obj fs => "\x7b" ++ stringifyFields fs ++ "\x7d"

/-- Comma-joined serialization of JSON array elements. -/
def stringifyElems : List Json → String
  | [] => ""
  | [x] => Json.stringify x
  | x :: y :: rest => Json.stringify x ++ "," ++ stringifyElems (y :: rest)

/-- Comma-joined serialization of JSON object fields. -/
def stringifyFields : List (String × Json) → String
  | [] => ""
  | [(k, v)] => "\"" ++ String.mk (jsonEscape k.data) ++ "\":" ++ Json.stringify v
  | (k, v) :: f :: rest =>
    "\"" ++ String.mk (jsonEscape k.data) ++ "\":" ++ Json.stringify v ++ ","
      ++ stringifyFields (f :: rest)

end

/-- Field lookup in a parsed object (`parsed.key` after destructuring);
`none` models JavaScript `undefined`. -/
def getField : JsObj → String → Option Json
  | [], _ => none
  | (k, v) :: rest, key => if k = key then some v else getField rest key

/-- The `...rest` of a destructuring: fields whose keys are not declared. -/
def keysRemoved (declared : List String) : JsObj → JsObj
  | [] => []
  | (k, v) :: rest =>
    if declared.contains k then keysRemoved declared rest
    else (k, v) :: keysRemoved declared rest

/-- Model of `a ?? b`: both `undefined` and `null` fall through to `b`. -/
def jsCoalesce (a b : Option Json) : Option Json :=
  match a with
  | some .null => b
  | none => b
  | some v => some v

/-- Model of `isPlainObject`: an object that is neither `null` nor an array. -/
def isPlainObject : Json → Bool
  | .obj _ => true
  | _ => false

end AiSql

namespace AiSql

/-- `requireTrimmedString`: the value must be a string that is non-blank after
trimming; the trimmed form is returned. -/
def requireTrimmedString (value : Option Json) (field : String) : Except String String :=
  match value with
  | some (.str s) =>
    if jsTrim s = "" then .error ("Missing " ++ field ++ " - cannot be blank.")
    else .ok (jsTrim s)
  | _ => .error ("Missing " ++ field ++ " - expected a string.")

/-- `requireNonEmptyString`: the value must be a string that is non-blank after
trimming; the original (untrimmed) string is returned. -/
def requireNonEmptyString (value : Option Json) (field : String) : Except String String :=
  match value with
  | some (.str s) =>
    if jsTrim s = "" then .error ("Missing " ++ field ++ " - cannot be blank.")
    else .ok s
  | _ => .error ("Missing " ++ field ++ " - expected a string.")

/-- A field value that counts as present for `!== undefined && !== null`. -/
def isDefinedNonNull : Option Json → Bool
  | none => false
  | some .null => false
  | some _ => true

/-- One optional source for `mergeModelParameters`: absent contributes nothing,
a plain object contributes itself, anything else is the given type error. -/
def optObjSource (v : Option Json) (msg : String) : Except String (List JsObj) :=
  match v with
  | none => .ok []
  | some (.obj o) => .ok [o]
  | some _ => .error msg

/-- Model of `Object.assign(target, source)` on two field lists: keys of the
second override keys of the first. -/
def objAssign (a b : JsObj) : JsObj :=
  a.filter (fun p => !((b.map Prod.fst).contains p.1)) ++ b

/-- `mergeModelParameters`: collect `model_parameters`, `modelParameters`,
`options` and the leftover keys into one merged options bag (no alias-conflict
check — both spellings are merged when both are present). -/
def mergeModelParameters (modelParameters modelParametersAlt options : Option Json)
    (rest : JsObj) : Except String (Option JsObj) := do
  let s1 ← optObjSource modelParameters "AI_COMPLETE model_parameters must be a JSON object."
  let s2 ← optObjSource modelParametersAlt "AI_COMPLETE modelParameters must be a JSON object."
  let s3 ← optObjSource options "AI_COMPLETE options must be a JSON object."
  let sources := s1 ++ s2 ++ s3 ++ (if rest.length > 0 then [rest] else [])
  if sources.length = 0 then pure none
  else
    let merged := sources.foldl objAssign []
    pure (if merged.length > 0 then some merged else none)

/-- `resolveResponseFormat` for AI_COMPLETE: at most one alias spelling, value
must be a plain object. -/
def resolveResponseFormat (responseFormat responseFormatAlt : Option Json) :
    Except String (Option JsObj) :=
  if responseFormat.isSome && responseFormatAlt.isSome then
    .error "Provide only one of response_format or responseFormat."
  else
    match (match responseFormat with | some v => some v | none => responseFormatAlt) with
    | none => .ok none
    | some (.obj o) => .ok (some o)
    | some _ => .error "AI_COMPLETE response_format must be a JSON object."

/-- `resolveShowDetails`: at most one alias spelling, value must be a boolean. -/
def resolveShowDetails (showDetails showDetailsAlt : Option Json) :
    Except String (Option Bool) :=
  if showDetails.isSome && showDetailsAlt.isSome then
    .error "Provide only one of show_details or showDetails."
  else
    match (match showDetails with | some v => some v | none => showDetailsAlt) with
    | none => .ok none
    | some (.bool b) => .ok (some b)
    | some _ => .error "AI_COMPLETE show_details must be a boolean."

/-- `resolveExtractResponseFormat`: required, object or array. -/
def resolveExtractResponseFormat (responseFormat responseFormatAlt : Option Json) :
    Except String Json :=
  if responseFormat.isSome && responseFormatAlt.isSome then
    .error "Provide only one of response_format or responseFormat."
  else
    match (match responseFormat with | some v => some v | none => responseFormatAlt) with
    | none => .error "Missing response_format - expected an object or array."
    | some (.obj o) => .ok (.obj o)
    | some (.arr a) => .ok (.arr a)
    | some _ => .error "AI_EXTRACT response_format must be a JSON object or array."

/-- The sixteen supported spellings (nine capabilities, each with its
`SNOWFLAKE.CORTEX.*` alias; SIMILARITY and PARSE_DOCUMENT included). -/
def SUPPORTED_FUNCTIONS : List String :=
  ["AI_COMPLETE", "SNOWFLAKE.CORTEX.COMPLETE",
   "AI_EXTRACT", "SNOWFLAKE.CORTEX.EXTRACT",
   "AI_SENTIMENT", "SNOWFLAKE.CORTEX.SENTIMENT",
   "AI_CLASSIFY", "SNOWFLAKE.CORTEX.CLASSIFY",
   "AI_COUNT_TOKENS", "SNOWFLAKE.CORTEX.COUNT_TOKENS",
   "AI_EMBED", "SNOWFLAKE.CORTEX.EMBED",
   "AI_SIMILARITY", "SNOWFLAKE.CORTEX.SIMILARITY",
   "AI_PARSE_DOCUMENT", "SNOWFLAKE.CORTEX.PARSE_DOCUMENT"]

/-- The if-chain of `normalizeFunctionName`: each known upper-cased spelling
is returned as its own literal; unknown names pass through unchanged. -/
def canonFunctionName (upper : String) : String :=
  if upper = "AI_COMPLETE" then "AI_COMPLETE"
  else if upper = "SNOWFLAKE.CORTEX.COMPLETE" then "SNOWFLAKE.CORTEX.COMPLETE"
  else if upper = "AI_EXTRACT" then "AI_EXTRACT"
  else if upper = "SNOWFLAKE.CORTEX.EXTRACT" then "SNOWFLAKE.CORTEX.EXTRACT"
  else if upper = "AI_SENTIMENT" then "AI_SENTIMENT"
  else if upper = "SNOWFLAKE.CORTEX.SENTIMENT" then "SNOWFLAKE.CORTEX.SENTIMENT"
  else if upper = "AI_CLASSIFY" then "AI_CLASSIFY"
  else if upper = "SNOWFLAKE.CORTEX.CLASSIFY" then "SNOWFLAKE.CORTEX.CLASSIFY"
  else if upper = "AI_COUNT_TOKENS" then "AI_COUNT_TOKENS"
  else if upper = "SNOWFLAKE.CORTEX.COUNT_TOKENS" then "SNOWFLAKE.CORTEX.COUNT_TOKENS"
  else if upper = "AI_EMBED" then "AI_EMBED"
  else if upper = "SNOWFLAKE.CORTEX.EMBED" then "SNOWFLAKE.CORTEX.EMBED"
  else if upper = "AI_SIMILARITY" then "AI_SIMILARITY"
  else if upper = "SNOWFLAKE.CORTEX.SIMILARITY" then "SNOWFLAKE.CORTEX.SIMILARITY"
  else if upper = "AI_PARSE_DOCUMENT" then "AI_PARSE_DOCUMENT"
  else if upper = "SNOWFLAKE.CORTEX.PARSE_DOCUMENT" then "SNOWFLAKE.CORTEX.PARSE_DOCUMENT"
  else upper

/-- `normalizeFunctionName`: trim, reject blank, upper-case, then map the
spelling through the recognition chain. -/
def normalizeFunctionName (raw : String) : Except String String :=
  if jsTrim raw = "" then
    .error "Missing function name - provide `function` input or set AI_FUNCTION."
  else .ok (canonFunctionName (jsUpper (jsTrim raw)))

/-- `assertSupportedFunction`: reject anything outside the closed set. -/
def assertSupportedFunction (functionName : String) : Except String Unit :=
  if SUPPORTED_FUNCTIONS.contains functionName then .ok ()
  else .error ("Unsupported function '" ++ functionName ++ "'. Supported: "
    ++ joinArgs SUPPORTED_FUNCTIONS ++ ".")

end AiSql

namespace AiSql

/-- Validated AI_COMPLETE payload. -/
structure AiCompletePayload where
  model : String
  prompt : String
  modelParameters : Option JsObj
  responseFormat : Option JsObj
  showDetails : Option Bool

/-- Validated AI_EXTRACT payload. -/
structure AiExtractPayload where
  text : Option String
  file : Option String
  responseFormat : Json

/-- Validated AI_SENTIMENT payload. -/
structure AiSentimentPayload where
  text : String
  categories : Option (List String)

/-- AI_CLASSIFY input: a string or a plain JSON object. -/
inductive ClassifyInput where
  | strInput : String → ClassifyInput
  | objInput : JsObj → ClassifyInput

/-- One normalized AI_CLASSIFY category: a plain trimmed string, or a
`label`/optional-`description` pair (both trimmed). -/
inductive CatEntry where
  | plain : String → CatEntry
  | labeled : String → Option String → CatEntry

/-- Validated AI_CLASSIFY payload. -/
structure AiClassifyPayload where
  input : ClassifyInput
  categories : List CatEntry
  config : Option JsObj

/-- Validated AI_COUNT_TOKENS payload. -/
structure AiCountTokensPayload where
  functionName : String
  inputText : String
  modelName : Option String
  categories : Option (List Json)

/-- Validated AI_EMBED payload. -/
structure AiEmbedPayload where
  model : String
  input : String
  inputFile : Option String

/-- Validated AI_SIMILARITY payload. -/
structure AiSimilarityPayload where
  input1 : String
  input2 : String
  input1File : Option String
  input2File : Option String
  config : Option JsObj

/-- Validated AI_PARSE_DOCUMENT payload. -/
structure AiParseDocumentPayload where
  file : String
  options : Option JsObj

/-- `parseAiCompleteArgs` on the parsed args object. -/
def parseAiCompleteArgs (o : JsObj) : Except String AiCompletePayload := do
  let rest := keysRemoved ["model", "prompt", "model_parameters", "modelParameters",
    "response_format", "responseFormat", "show_details", "showDetails", "options"] o
  let model ← requireTrimmedString (getField o "model") "model"
  let prompt ← requireNonEmptyString (getField o "prompt") "prompt"
  let mp ← mergeModelParameters (getField o "model_parameters")
    (getField o "modelParameters") (getField o "options") rest
  let rf ← resolveResponseFormat (getField o "response_format") (getField o "responseFormat")
  let sd ← resolveShowDetails (getField o "show_details") (getField o "showDetails")
  pure ⟨model, prompt, mp, rf, sd⟩

/-- `parseAiExtractArgs` on the parsed args object. -/
def parseAiExtractArgs (o : JsObj) : Except String AiExtractPayload := do
  let text := getField o "text"
  let file := getField o "file"
  let rest := keysRemoved ["text", "file", "response_format", "responseFormat"] o
  if rest.length > 0 then
    throw ("AI_EXTRACT does not accept additional arguments: " ++ joinArgs (rest.map Prod.fst))
  let hasText := isDefinedNonNull text
  let hasFile := isDefinedNonNull file
  if hasText == hasFile then
    throw "AI_EXTRACT requires either `text` or `file` (but not both)."
  if hasText then
    let t ← requireNonEmptyString text "text"
    let rf ← resolveExtractResponseFormat (getField o "response_format") (getField o "responseFormat")
    pure ⟨some t, none, rf⟩
  else
    let f ← requireNonEmptyString file "file"
    let rf ← resolveExtractResponseFormat (getField o "response_format") (getField o "responseFormat")
    pure ⟨none, some f, rf⟩

/-- The per-entry mapping over AI_SENTIMENT categories (index carried for the
error messages). -/
def sentimentCats : List Json → Nat → Except String (List String)
  | [], _ => .ok []
  | e :: rest, i =>
    match e with
    | .str s =>
      if jsTrim s = "" then
        .error ("AI_SENTIMENT categories[" ++ toString i ++ "] cannot be blank.")
      else if (jsTrim s).length > 30 then
        .error ("AI_SENTIMENT categories[" ++ toString i ++ "] exceeds 30 characters.")
      else do
        let r ← sentimentCats rest (i + 1)
        pure (jsTrim s :: r)
    | _ => .error ("AI_SENTIMENT categories[" ++ toString i ++ "] must be a string.")

/-- `parseAiSentimentArgs` on the parsed args object. -/
def parseAiSentimentArgs (o : JsObj) : Except String AiSentimentPayload := do
  let rest := keysRemoved ["text", "categories"] o
  if rest.length > 0 then
    throw ("AI_SENTIMENT does not accept additional arguments: " ++ joinArgs (rest.map Prod.fst))
  let text ← requireNonEmptyString (getField o "text") "text"
  match getField o "categories" with
  | none => pure ⟨text, none⟩
  | some (.arr cats) =>
    if cats.length = 0 then throw "AI_SENTIMENT categories cannot be empty."
    else if cats.length > 10 then throw "AI_SENTIMENT categories supports up to 10 items."
    else do
      let resolved ← sentimentCats cats 0
      pure ⟨text, some resolved⟩
  | some _ => throw "AI_SENTIMENT categories must be a JSON array of strings."

/-- `resolveClassifyInput`: a non-blank string (returned untrimmed) or a plain
object. -/
def resolveClassifyInput (value : Option Json) : Except String ClassifyInput :=
  match value with
  | none => .error "Missing input - expected a string or JSON object."
  | some .null => .error "Missing input - expected a string or JSON object."
  | some (.str s) =>
    if jsTrim s = "" then .error "Missing input - cannot be blank."
    else .ok (.strInput s)
  | some (.obj ob) => .ok (.objInput ob)
  | some _ => .error "AI_CLASSIFY input must be a string or JSON object."

/-- The `forEach` loop of `normalizeClassifyCategories`: `seen` is the set of
trimmed labels already emitted; duplicates are skipped silently. -/
def classifyCats (label : String) : List Json → Nat → List String → Except String (List CatEntry)
  | [], _, _ => .ok []
  | e :: rest, i, seen =>
    match e with
    | .str s =>
      if jsTrim s = "" then
        .error ("AI_CLASSIFY " ++ label ++ "[" ++ toString i ++ "] cannot be blank.")
      else if seen.contains (jsTrim s) then classifyCats label rest (i + 1) seen
      else do
        let r ← classifyCats label rest (i + 1) (jsTrim s :: seen)
        pure (.plain (jsTrim s) :: r)
    | .obj entry =>
      match getField entry "label" with
      | some (.str rawLabel) =>
        if jsTrim rawLabel = "" then
          .error ("AI_CLASSIFY " ++ label ++ "[" ++ toString i ++ "].label must be a non-empty string.")
        else if seen.contains (jsTrim rawLabel) then classifyCats label rest (i + 1) seen
        else
          match getField entry "description" with
          | none => do
            let r ← classifyCats label rest (i + 1) (jsTrim rawLabel :: seen)
            pure (.labeled (jsTrim rawLabel) none :: r)
          | some (.str d) => do
            let r ← classifyCats label rest (i + 1) (jsTrim rawLabel :: seen)
            pure (.labeled (jsTrim rawLabel)
              (if d ≠ "" ∧ jsTrim d ≠ "" then some (jsTrim d) else none) :: r)
          | some _ =>
            .error ("AI_CLASSIFY " ++ label ++ "[" ++ toString i ++ "].description must be a string.")
      | _ =>
        .error ("AI_CLASSIFY " ++ label ++ "[" ++ toString i ++ "].label must be a non-empty string.")
    | _ => .error ("AI_CLASSIFY " ++ label ++ "[" ++ toString i ++ "] must be a string or object.")

/-- `normalizeClassifyCategories`: a non-empty array of strings or
label/description objects, de-duplicated by trimmed label. -/
def normalizeClassifyCategories (value : Option Json) (label : String) :
    Except String (List CatEntry) :=
  match value with
  | some (.arr entries) =>
    if entries.length = 0 then .error ("AI_CLASSIFY " ++ label ++ " cannot be empty.")
    else classifyCats label entries 0 []
  | _ => .error ("AI_CLASSIFY " ++ label ++ " must be a JSON array.")

/-- `parseAiClassifyArgs` on the parsed args object. -/
def parseAiClassifyArgs (o : JsObj) : Except String AiClassifyPayload := do
  let input := getField o "input"
  let list_of_categories := getField o "list_of_categories"
  let categories := getField o "categories"
  let config_object := getField o "config_object"
  let config := getField o "config"
  let rest := keysRemoved ["input", "list_of_categories", "categories", "config_object", "config"] o
  if rest.length > 0 then
    throw ("AI_CLASSIFY does not accept additional arguments: " ++ joinArgs (rest.map Prod.fst))
  if list_of_categories.isSome && categories.isSome then
    throw "Provide only one of list_of_categories or categories."
  let resolvedCategories ← normalizeClassifyCategories
    (jsCoalesce categories list_of_categories) "categories"
  if resolvedCategories.length < 2 then
    throw "AI_CLASSIFY requires at least two unique categories."
  let resolvedInput ← resolveClassifyInput input
  if config_object.isSome && config.isSome then
    throw "Provide only one of config_object or config."
  let resolvedConfig ← (match jsCoalesce config_object config with
    | none => pure none
    | some (.obj c) => pure (some c)
    | some _ => throw "AI_CLASSIFY config_object must be a JSON object.")
  pure ⟨resolvedInput, resolvedCategories, resolvedConfig⟩

/-- `parseAiCountTokensArgs` on the parsed args object. -/
def parseAiCountTokensArgs (o : JsObj) : Except String AiCountTokensPayload := do
  let function_name := getField o "function_name"
  let functionAlt := getField o "function"
  let input_text := getField o "input_text"
  let text := getField o "text"
  let model_name := getField o "model_name"
  let modelName := getField o "modelName"
  let categories := getField o "categories"
  let rest := keysRemoved ["function_name", "function", "input_text", "text",
    "model_name", "modelName", "categories"] o
  if rest.length > 0 then
    throw ("AI_COUNT_TOKENS does not accept additional arguments: " ++ joinArgs (rest.map Prod.fst))
  let trimmedFn ← requireTrimmedString (jsCoalesce function_name functionAlt) "function_name"
  let rawFunctionName := jsLower trimmedFn
  if !(jsStartsWith rawFunctionName "ai_") then
    throw "AI_COUNT_TOKENS function_name must start with ai_."
  let inputText ← requireNonEmptyString (jsCoalesce input_text text) "input_text"
  if model_name.isSome && modelName.isSome then
    throw "Provide only one of model_name or modelName."
  let resolvedModelName ← (if model_name.isSome || modelName.isSome then do
      pure (some (← requireTrimmedString (jsCoalesce model_name modelName) "model_name"))
    else pure (none : Option String))
  let resolvedCategories ← (match categories with
    | none => pure (none : Option (List Json))
    | some (.arr cs) => pure (some cs)
    | some _ => throw "AI_COUNT_TOKENS categories must be a JSON array.")
  if (match resolvedModelName with | some m => m ≠ "" | none => false) && resolvedCategories.isSome then
    throw "AI_COUNT_TOKENS accepts either model_name or categories, not both."
  pure ⟨rawFunctionName, inputText,
    (match resolvedModelName with | some m => if m = "" then none else some m | none => none),
    resolvedCategories⟩

/-- `parseAiEmbedArgs` on the parsed args object. -/
def parseAiEmbedArgs (o : JsObj) : Except String AiEmbedPayload := do
  let model := getField o "model"
  let input := getField o "input"
  let input_file := getField o "input_file"
  let rest := keysRemoved ["model", "input", "input_file"] o
  if rest.length > 0 then
    throw ("AI_EMBED does not accept additional arguments: " ++ joinArgs (rest.map Prod.fst))
  if input.isSome && input_file.isSome then
    throw "AI_EMBED requires either input or input_file, not both."
  let resolvedModel ← requireTrimmedString model "model"
  match input_file with
  | some v =>
    let f ← requireNonEmptyString (some v) "input_file"
    pure ⟨resolvedModel, "", if f = "" then none else some f⟩
  | none =>
    let inp ← requireNonEmptyString input "input"
    pure ⟨resolvedModel, inp, none⟩

/-- `parseAiSimilarityArgs` on the parsed args object. -/
def parseAiSimilarityArgs (o : JsObj) : Except String AiSimilarityPayload := do
  let input1 := getField o "input1"
  let input2 := getField o "input2"
  let input1_file := getField o "input1_file"
  let input2_file := getField o "input2_file"
  let config_object := getField o "config_object"
  let config := getField o "config"
  let rest := keysRemoved ["input1", "input2", "input1_file", "input2_file",
    "config_object", "config"] o
  if rest.length > 0 then
    throw ("AI_SIMILARITY does not accept additional arguments: " ++ joinArgs (rest.map Prod.fst))
  let hasText := input1.isSome || input2.isSome
  let hasFile := input1_file.isSome || input2_file.isSome
  if hasText && hasFile then
    throw "AI_SIMILARITY requires either input1/input2 or input1_file/input2_file, not both."
  let core ← (if hasFile then do
      let f1 ← requireNonEmptyString input1_file "input1_file"
      let f2 ← requireNonEmptyString input2_file "input2_file"
      pure (("", ""), (if f1 = "" then none else some f1), (if f2 = "" then none else some f2))
    else do
      let i1 ← requireNonEmptyString input1 "input1"
      let i2 ← requireNonEmptyString input2 "input2"
      pure ((i1, i2), (none : Option String), (none : Option String)))
  if config_object.isSome && config.isSome then
    throw "Provide only one of config_object or config."
  let resolvedConfig ← (match jsCoalesce config_object config with
    | none => pure none
    | some (.obj c) => pure (some c)
    | some _ => throw "AI_SIMILARITY config_object must be a JSON object.")
  pure ⟨core.1.1, core.1.2, core.2.1, core.2.2, resolvedConfig⟩

/-- `parseAiParseDocumentArgs` on the parsed args object. -/
def parseAiParseDocumentArgs (o : JsObj) : Except String AiParseDocumentPayload := do
  let file := getField o "file"
  let file_object := getField o "file_object"
  let options := getField o "options"
  let rest := keysRemoved ["file", "file_object", "options"] o
  if rest.length > 0 then
    throw ("AI_PARSE_DOCUMENT does not accept additional arguments: " ++ joinArgs (rest.map Prod.fst))
  if file.isSome && file_object.isSome then
    throw "Provide only one of file or file_object."
  let resolvedFile ← requireNonEmptyString (jsCoalesce file file_object) "file"
  let resolvedOptions ← (match options with
    | none => pure none
    | some (.obj ob) => pure (some ob)
    | some _ => throw "AI_PARSE_DOCUMENT options must be a JSON object.")
  pure ⟨resolvedFile, resolvedOptions⟩

end AiSql

namespace AiSql

/-- JSON form of a normalized AI_CLASSIFY category, as serialized by the
classify query builder. -/
def CatEntry.toJson : CatEntry → Json
  | .plain s => .str s
  | .labeled l none => .obj [("label", .str l)]
  | .labeled l (some d) => .obj [("label", .str l), ("description", .str d)]

/-- The argument list assembled by `buildAiCompleteSql`: optional parts are
appended only when present (and, for the parameter bag, non-empty). -/
def completeSqlArgs (payload : AiCompletePayload) : List String :=
  ["model => " ++ toSqlString payload.model,
   "prompt => " ++ toSqlString payload.prompt]
  ++ (match payload.modelParameters with
    | some mp =>
      if mp.length > 0 then
        ["model_parameters => PARSE_JSON(" ++ toSqlString (Json.stringify (.obj mp)) ++ ")"]
      else []
    | none => [])
  ++ (match payload.responseFormat with
    | some rf => ["response_format => PARSE_JSON(" ++ toSqlString (Json.stringify (.obj rf)) ++ ")"]
    | none => [])
  ++ (match payload.showDetails with
    | some b => ["show_details => " ++ (if b then "TRUE" else "FALSE")]
    | none => [])

/-- `buildAiCompleteSql`: named-argument call. -/
def buildAiCompleteSql (functionName : String) (payload : AiCompletePayload) : String :=
  "select " ++ functionName ++ "(" ++ joinArgs (completeSqlArgs payload) ++ ") as response"

/-- The argument list assembled by `buildAiExtractSql`: the `file` value is
inserted verbatim (a stage reference expression), the `text` value is
escaped. -/
def extractSqlArgs (payload : AiExtractPayload) : List String :=
  (match payload.text with
    | some t => if t = "" then [] else ["text => " ++ toSqlString t]
    | none => [])
  ++ (match payload.file with
    | some f => if f = "" then [] else ["file => " ++ f]
    | none => [])
  ++ ["responseFormat => PARSE_JSON(" ++ toSqlString (Json.stringify payload.responseFormat) ++ ")"]

/-- `buildAiExtractSql` proper: the named-argument call expression. -/
def buildAiExtractSql (functionName : String) (payload : AiExtractPayload) : String :=
  "select " ++ functionName ++ "(" ++ joinArgs (extractSqlArgs payload) ++ ") as response"

/-- The argument list assembled by `buildAiClassifySql`: string input escaped,
object input and categories embedded through `PARSE_JSON`. -/
def classifySqlArgs (payload : AiClassifyPayload) : List String :=
  [match payload.input with
    | .strInput s => "input => " ++ toSqlString s
    | .objInput ob => "input => PARSE_JSON(" ++ toSqlString (Json.stringify (.obj ob)) ++ ")"]
  ++ ["list_of_categories => PARSE_JSON("
    ++ toSqlString (Json.stringify (.arr (payload.categories.map CatEntry.toJson))) ++ ")"]
  ++ (match payload.config with
    | some c => ["config_object => PARSE_JSON(" ++ toSqlString (Json.stringify (.obj c)) ++ ")"]
    | none => [])

/-- `buildAiClassifySql` proper: the named-argument call expression. -/
def buildAiClassifySql (functionName : String) (payload : AiClassifyPayload) : String :=
  "select " ++ functionName ++ "(" ++ joinArgs (classifySqlArgs payload) ++ ") as response"

/-- The categories/2-argument tail of `buildAiCountTokensSql` (reached when
`modelName` is absent or falsy). -/
def buildAiCountTokensSqlTail (functionName functionLiteral textLiteral : String) :
    Option (List Json) → String
  | some cs =>
    "select " ++ functionName ++ "(" ++ functionLiteral ++ ", " ++ textLiteral
      ++ ", PARSE_JSON(" ++ toSqlString (Json.stringify (.arr cs)) ++ ")) as response"
  | none =>
    "select " ++ functionName ++ "(" ++ functionLiteral ++ ", " ++ textLiteral ++ ") as response"

/-- `buildAiCountTokensSql`: positional call, all three scalar arguments
escaped. -/
def buildAiCountTokensSql (functionName : String) (payload : AiCountTokensPayload) : String :=
  let functionLiteral := toSqlString payload.functionName
  let textLiteral := toSqlString payload.inputText
  match payload.modelName with
  | some m =>
    if m = "" then buildAiCountTokensSqlTail functionName functionLiteral textLiteral payload.categories
    else
      "select " ++ functionName ++ "(" ++ functionLiteral ++ ", " ++ toSqlString m
        ++ ", " ++ textLiteral ++ ") as response"
  | none => buildAiCountTokensSqlTail functionName functionLiteral textLiteral payload.categories

/-- `buildAiEmbedSql`: positional call; a file reference is inserted verbatim,
a text input is escaped. -/
def buildAiEmbedSql (functionName : String) (payload : AiEmbedPayload) : String :=
  let modelLiteral := toSqlString payload.model
  let inputLiteral := match payload.inputFile with
    | some f => if f = "" then toSqlString payload.input else f
    | none => toSqlString payload.input
  "select " ++ functionName ++ "(" ++ modelLiteral ++ ", " ++ inputLiteral ++ ") as response"

/-- The argument list assembled by `buildAiSimilaritySql`: file references
verbatim, text inputs escaped, config embedded through `PARSE_JSON`. -/
def similaritySqlArgs (payload : AiSimilarityPayload) : List String :=
  [(match payload.input1File with
    | some f => if f = "" then toSqlString payload.input1 else f
    | none => toSqlString payload.input1),
   (match payload.input2File with
    | some f => if f = "" then toSqlString payload.input2 else f
    | none => toSqlString payload.input2)]
  ++ (match payload.config with
    | some c => ["PARSE_JSON(" ++ toSqlString (Json.stringify (.obj c)) ++ ")"]
    | none => [])

/-- `buildAiSimilaritySql` proper: the positional call expression. -/
def buildAiSimilaritySql (functionName : String) (payload : AiSimilarityPayload) : String :=
  "select " ++ functionName ++ "(" ++ joinArgs (similaritySqlArgs payload) ++ ") as response"

/-- The argument list assembled by `buildAiParseDocumentSql`: the `file` value
is inserted verbatim. -/
def parseDocumentSqlArgs (payload : AiParseDocumentPayload) : List String :=
  ["file => " ++ payload.file]
  ++ (match payload.options with
    | some ob => ["options => PARSE_JSON(" ++ toSqlString (Json.stringify (.obj ob)) ++ ")"]
    | none => [])

/-- `buildAiParseDocumentSql` proper: the named-argument call expression. -/
def buildAiParseDocumentSql (functionName : String) (payload : AiParseDocumentPayload) : String :=
  "select " ++ functionName ++ "(" ++ joinArgs (parseDocumentSqlArgs payload) ++ ") as response"

/-- `buildAiSentimentSql`: positional call; text escaped, categories embedded
through `PARSE_JSON` when present and non-empty. -/
def buildAiSentimentSql (functionName : String) (payload : AiSentimentPayload) : String :=
  let textLiteral := toSqlString payload.text
  match payload.categories with
  | some cats =>
    if cats.length > 0 then
      "select " ++ functionName ++ "(" ++ textLiteral ++ ", PARSE_JSON("
        ++ toSqlString (Json.stringify (.arr (cats.map Json.str))) ++ ")) as response"
    else "select " ++ functionName ++ "(" ++ textLiteral ++ ") as response"
  | none => "select " ++ functionName ++ "(" ++ textLiteral ++ ") as response"

end AiSql

namespace AiSql

/-- `occursIn needle hay`: the needle occurs contiguously inside the hay. -/
def occursIn (needle hay : String) : Prop := needle.data <:+: hay.data

theorem occursIn_self (n : String) : occursIn n n := List.infix_refl _

theorem occursIn_appendR (n a b : String) (h : occursIn n a) : occursIn n (a ++ b) := by
  unfold occursIn at h ⊢
  rw [String.data_append]
  exact h.trans (List.prefix_append a.data b.data).isInfix

theorem occursIn_appendL (n a b : String) (h : occursIn n b) : occursIn n (a ++ b) := by
  unfold occursIn at h ⊢
  rw [String.data_append]
  exact h.trans (List.suffix_append a.data b.data).isInfix

theorem occursIn_trans (a b c : String) (h₁ : occursIn a b) (h₂ : occursIn b c) :
    occursIn a c := List.IsInfix.trans h₁ h₂

theorem occursIn_joinArgs (x : String) (l : List String) (hm : x ∈ l) :
    occursIn x (joinArgs l) := by
  induction l with
  | nil => cases hm
  | cons a t ih =>
    cases t with
    | nil =>
      rcases List.mem_singleton.mp hm with rfl
      exact occursIn_self x
    | cons b t2 =>
      rcases List.mem_cons.mp hm with rfl | hm'
      · show occursIn x (x ++ ", " ++ joinArgs (b :: t2))
        exact occursIn_appendR _ _ _ (occursIn_appendR _ _ _ (occursIn_self x))
      · show occursIn x (a ++ ", " ++ joinArgs (b :: t2))
        exact occursIn_appendL _ _ _ (ih hm')

/-- An element of the argument list occurs in the assembled call expression. -/
theorem occursIn_join_build (n pre post x : String) (l : List String)
    (hx : x ∈ l) (h : occursIn n x) : occursIn n (pre ++ joinArgs l ++ post) :=
  occursIn_appendR _ _ _ (occursIn_appendL _ _ _ (occursIn_trans _ _ _ h (occursIn_joinArgs x l hx)))

theorem escapeQuotes_eq_nil (l : List Char) : escapeQuotes l = [] ↔ l = [] := by
  cases l with
  | nil => simp [escapeQuotes]
  | cons c rest =>
    simp only [escapeQuotes]
    constructor
    · intro h
      by_cases hc : c = '\''
      · rw [if_pos hc] at h; simp at h
      · rw [if_neg hc] at h; simp at h
    · intro h; cases h

/-- The quote-doubling escape is inverted exactly by collapsing doubled
quotes. -/
theorem undouble_escapeQuotes (l : List Char) : undouble (escapeQuotes l) = l := by
  induction l with
  | nil => rfl
  | cons c rest ih =>
    by_cases hc : c = '\''
    · subst hc
      simp [escapeQuotes, undouble, ih]
    · simp only [escapeQuotes, if_neg hc, List.cons_append, List.nil_append]
      cases hrest : escapeQuotes rest with
      | nil =>
        have hr : rest = [] := (escapeQuotes_eq_nil rest).mp hrest
        subst hr
        rfl
      | cons d ds =>
        have : undouble (c :: d :: ds) = c :: undouble (d :: ds) := by
          simp only [undouble]
          rw [if_neg]
          intro hand
          exact hc hand.1
        rw [this, ← hrest, ih]

end AiSql

namespace AiSql

theorem charToNatOfNat (n : Nat) (h : n < 55296) : (Char.ofNat n).toNat = n := by
  have hv : n.isValidChar := Or.inl h
  simp only [Char.ofNat, dif_pos hv, Char.ofNatAux, Char.toNat, UInt32.toNat]
  simp [BitVec.toNat_ofNatLt]

theorem charToUpperEq (c : Char) :
    c.toUpper = if c.toNat ≥ 97 ∧ c.toNat ≤ 122 then Char.ofNat (c.toNat - 32) else c := rfl

theorem charToUpperIdem (c : Char) : c.toUpper.toUpper = c.toUpper := by
  rw [charToUpperEq c, charToUpperEq]
  by_cases h : c.toNat ≥ 97 ∧ c.toNat ≤ 122
  · rw [if_pos h]
    have ht : (Char.ofNat (c.toNat - 32)).toNat = c.toNat - 32 :=
      charToNatOfNat _ (by omega)
    rw [if_neg (by omega)]
  · rw [if_neg h, if_neg h]

theorem isJsWs_of_ge (d : Char) (hd : 33 ≤ d.toNat) : isJsWs d = false := by
  simp only [isJsWs, Bool.or_eq_false_iff]
  refine ⟨⟨⟨⟨⟨?_, ?_⟩, ?_⟩, ?_⟩, ?_⟩, ?_⟩ <;>
    · rw [beq_eq_false_iff_ne]
      rintro rfl
      revert hd
      decide

theorem isJsWs_toUpper (c : Char) : isJsWs c.toUpper = isJsWs c := by
  rw [charToUpperEq]
  by_cases h : c.toNat ≥ 97 ∧ c.toNat ≤ 122
  · rw [if_pos h]
    have ht : (Char.ofNat (c.toNat - 32)).toNat = c.toNat - 32 :=
      charToNatOfNat _ (by omega)
    rw [isJsWs_of_ge _ (by omega), isJsWs_of_ge c (by omega)]
  · rw [if_neg h]

theorem dropWhileIdem {α : Type} (p : α → Bool) (l : List α) :
    (l.dropWhile p).dropWhile p = l.dropWhile p := by
  induction l with
  | nil => rfl
  | cons a t ih =>
    by_cases h : p a
    · simp [List.dropWhile_cons, h, ih]
    · simp [List.dropWhile_cons, h]

theorem trimBackPrefix (m : List Char) :
    ((m.reverse.dropWhile isJsWs).reverse) <+: m :=
  List.reverse_suffix.mp (by rw [List.reverse_reverse]; exact List.dropWhile_suffix _)

theorem dropWhileHeadNot {α : Type} (p : α → Bool) (l : List α) (c : α) (t : List α)
    (h : l.dropWhile p = c :: t) : p c = false := by
  induction l with
  | nil => simp at h
  | cons a as ih =>
    rw [List.dropWhile_cons] at h
    by_cases ha : p a = true
    · rw [if_pos ha] at h; exact ih h
    · rw [if_neg ha] at h
      cases h
      simpa using ha

theorem trimBack_headclean (l : List Char) :
    ((((l.dropWhile isJsWs).reverse.dropWhile isJsWs).reverse).dropWhile isJsWs)
      = (((l.dropWhile isJsWs).reverse.dropWhile isJsWs).reverse) := by
  cases hX : (((l.dropWhile isJsWs).reverse.dropWhile isJsWs).reverse) with
  | nil => rfl
  | cons c t =>
    have hpre : c :: t <+: l.dropWhile isJsWs := by
      rw [← hX]; exact trimBackPrefix _
    obtain ⟨r, hr⟩ := hpre
    have hpc : isJsWs c = false := dropWhileHeadNot isJsWs l c (t ++ r) hr.symm
    rw [List.dropWhile_cons]
    simp [hpc]

theorem jsTrimListIdem (l : List Char) : jsTrimList (jsTrimList l) = jsTrimList l := by
  unfold jsTrimList
  rw [trimBack_headclean l, List.reverse_reverse, dropWhileIdem]

theorem jsTrimListMapToUpper (l : List Char) :
    jsTrimList (l.map Char.toUpper) = (jsTrimList l).map Char.toUpper := by
  have hws : (isJsWs ∘ Char.toUpper) = isJsWs := funext isJsWs_toUpper
  unfold jsTrimList
  rw [List.dropWhile_map, hws, ← List.map_reverse, List.dropWhile_map, hws,
    ← List.map_reverse]

theorem jsTrim_jsTrim (s : String) : jsTrim (jsTrim s) = jsTrim s := by
  show String.mk (jsTrimList (jsTrimList s.data)) = String.mk (jsTrimList s.data)
  rw [jsTrimListIdem]

theorem jsUpper_jsTrim (s : String) : jsUpper (jsTrim s) = jsTrim (jsUpper s) := by
  show String.mk ((jsTrimList s.data).map Char.toUpper)
    = String.mk (jsTrimList (s.data.map Char.toUpper))
  rw [jsTrimListMapToUpper]

theorem jsUpper_jsUpper (s : String) : jsUpper (jsUpper s) = jsUpper s := by
  show String.mk ((s.data.map Char.toUpper).map Char.toUpper) = String.mk (s.data.map Char.toUpper)
  have h : Char.toUpper ∘ Char.toUpper = Char.toUpper := funext (fun c => charToUpperIdem c)
  rw [List.map_map, h]

theorem jsUpper_eq_empty (s : String) : jsUpper s = "" ↔ s = "" := by
  constructor
  · intro h
    have hd : (jsUpper s).data = [] := by rw [h]
    have : s.data.map Char.toUpper = [] := hd
    have : s.data = [] := List.map_eq_nil_iff.mp this
    cases s
    simp_all
  · rintro rfl
    rfl

end AiSql

namespace AiSql

theorem canonFunctionName_id (u : String) : canonFunctionName u = u := by
  unfold canonFunctionName
  by_cases h1 : u = "AI_COMPLETE"
  · rw [if_pos h1]; exact h1.symm
  rw [if_neg h1]
  by_cases h2 : u = "SNOWFLAKE.CORTEX.COMPLETE"
  · rw [if_pos h2]; exact h2.symm
  rw [if_neg h2]
  by_cases h3 : u = "AI_EXTRACT"
  · rw [if_pos h3]; exact h3.symm
  rw [if_neg h3]
  by_cases h4 : u = "SNOWFLAKE.CORTEX.EXTRACT"
  · rw [if_pos h4]; exact h4.symm
  rw [if_neg h4]
  by_cases h5 : u = "AI_SENTIMENT"
  · rw [if_pos h5]; exact h5.symm
  rw [if_neg h5]
  by_cases h6 : u = "SNOWFLAKE.CORTEX.SENTIMENT"
  · rw [if_pos h6]; exact h6.symm
  rw [if_neg h6]
  by_cases h7 : u = "AI_CLASSIFY"
  · rw [if_pos h7]; exact h7.symm
  rw [if_neg h7]
  by_cases h8 : u = "SNOWFLAKE.CORTEX.CLASSIFY"
  · rw [if_pos h8]; exact h8.symm
  rw [if_neg h8]
  by_cases h9 : u = "AI_COUNT_TOKENS"
  · rw [if_pos h9]; exact h9.symm
  rw [if_neg h9]
  by_cases h10 : u = "SNOWFLAKE.CORTEX.COUNT_TOKENS"
  · rw [if_pos h10]; exact h10.symm
  rw [if_neg h10]
  by_cases h11 : u = "AI_EMBED"
  · rw [if_pos h11]; exact h11.symm
  rw [if_neg h11]
  by_cases h12 : u = "SNOWFLAKE.CORTEX.EMBED"
  · rw [if_pos h12]; exact h12.symm
  rw [if_neg h12]
  by_cases h13 : u = "AI_SIMILARITY"
  · rw [if_pos h13]; exact h13.symm
  rw [if_neg h13]
  by_cases h14 : u = "SNOWFLAKE.CORTEX.SIMILARITY"
  · rw [if_pos h14]; exact h14.symm
  rw [if_neg h14]
  by_cases h15 : u = "AI_PARSE_DOCUMENT"
  · rw [if_pos h15]; exact h15.symm
  rw [if_neg h15]
  by_cases h16 : u = "SNOWFLAKE.CORTEX.PARSE_DOCUMENT"
  · rw [if_pos h16]; exact h16.symm
  rw [if_neg h16]

theorem normalizeFunctionName_blank (s : String) (h : jsTrim s = "") :
    normalizeFunctionName s =
      .error "Missing function name - provide `function` input or set AI_FUNCTION." := by
  unfold normalizeFunctionName
  rw [if_pos h]

theorem normalizeFunctionName_eq (s : String) (h : jsTrim s ≠ "") :
    normalizeFunctionName s = .ok (jsUpper (jsTrim s)) := by
  unfold normalizeFunctionName
  rw [if_neg h, canonFunctionName_id]

/-- Claim C4: function-name resolution is case-insensitive (any two case
variants of the same spelling resolve alike) and idempotent
(`resolve (resolve x) = resolve x` on every successful resolution); this holds
for the canonical names and declared aliases in particular. -/
theorem functionNameResolution_caseInsensitive_idempotent :
    (∀ s t : String, jsUpper s = jsUpper t →
      normalizeFunctionName s = normalizeFunctionName t) ∧
    (∀ s r : String, normalizeFunctionName s = .ok r → normalizeFunctionName r = .ok r) := by
  constructor
  · intro s t hu
    have htrim : jsUpper (jsTrim s) = jsUpper (jsTrim t) := by
      rw [jsUpper_jsTrim, jsUpper_jsTrim, hu]
    by_cases hs : jsTrim s = ""
    · have ht : jsTrim t = "" := by
        have h1 : jsUpper (jsTrim s) = "" := (jsUpper_eq_empty _).mpr hs
        have h2 : jsUpper (jsTrim t) = "" := by rw [← htrim]; exact h1
        exact (jsUpper_eq_empty _).mp h2
      rw [normalizeFunctionName_blank s hs, normalizeFunctionName_blank t ht]
    · have ht : jsTrim t ≠ "" := by
        intro h0
        apply hs
        have h2 : jsUpper (jsTrim t) = "" := (jsUpper_eq_empty _).mpr h0
        have h1 : jsUpper (jsTrim s) = "" := by rw [htrim]; exact h2
        exact (jsUpper_eq_empty _).mp h1
      rw [normalizeFunctionName_eq s hs, normalizeFunctionName_eq t ht, htrim]
  · intro s r h
    by_cases hs : jsTrim s = ""
    · rw [normalizeFunctionName_blank s hs] at h
      cases h
    · rw [normalizeFunctionName_eq s hs] at h
      cases h
      have h1 : jsTrim (jsUpper (jsTrim s)) = jsUpper (jsTrim s) := by
        rw [← jsUpper_jsTrim, jsTrim_jsTrim]
      have h2 : jsTrim (jsUpper (jsTrim s)) ≠ "" := by
        rw [h1]
        intro h0
        exact hs ((jsUpper_eq_empty _).mp h0)
      rw [normalizeFunctionName_eq _ h2, h1, jsUpper_jsUpper]

/-- Witness for C4: concrete case variants of `ai_complete` resolve alike, and
resolving an already-resolved name is a fixed point. -/
theorem functionNameResolution_witness :
    (normalizeFunctionName "Ai_Complete" = normalizeFunctionName "ai_complete") ∧
    (normalizeFunctionName "AI_EMBED" = .ok "AI_EMBED") :=
  ⟨functionNameResolution_caseInsensitive_idempotent.1 "Ai_Complete" "ai_complete" rfl,
   functionNameResolution_caseInsensitive_idempotent.2 "ai_embed" "AI_EMBED" rfl⟩

/-- Claim C5: `quote(s)` is `s` with every single quote doubled, wrapped in
single quotes; undoing the doubling on the wrapped content recovers `s`
exactly; and the value `O'Brien` yields the literal `'O''Brien'`. -/
theorem toSqlString_quoting_roundtrip :
    (∀ s : String, (toSqlString s).data = '\'' :: (escapeQuotes s.data ++ ['\''])) ∧
    (∀ s : String, undouble (escapeQuotes s.data) = s.data) ∧
    toSqlString "O'Brien" = "'O''Brien'" := by
  refine ⟨?_, ?_, rfl⟩
  · intro s
    show ("'" ++ String.mk (escapeQuotes s.data) ++ "'").data = _
    rw [String.data_append, String.data_append]
    simp
  · intro s
    exact undouble_escapeQuotes s.data

end AiSql

namespace AiSql

instance occursInDecidable (n h : String) : Decidable (occursIn n h) :=
  inferInstanceAs (Decidable (n.data <:+: h.data))

theorem occursIn_parts (n a b hay : String) (h : hay = a ++ n ++ b) : occursIn n hay := by
  subst h
  unfold occursIn
  rw [String.data_append, String.data_append]
  exact List.infix_append _ _ _

theorem mem_completeSqlArgs_model (p : AiCompletePayload) :
    ("model => " ++ toSqlString p.model) ∈ completeSqlArgs p := by
  unfold completeSqlArgs
  exact List.mem_append_left _ (List.mem_append_left _ (List.mem_append_left _
    (List.mem_cons_self _ _)))

theorem mem_completeSqlArgs_prompt (p : AiCompletePayload) :
    ("prompt => " ++ toSqlString p.prompt) ∈ completeSqlArgs p := by
  unfold completeSqlArgs
  exact List.mem_append_left _ (List.mem_append_left _ (List.mem_append_left _
    (List.mem_cons_of_mem _ (List.mem_cons_self _ _))))

/-- Claim C1 (amended): for every function, the text-valued payload fields are
embedded through the Value Escaper `toSqlString` (structured values through
`toSqlString` of their serialization), with the exception of the file-reference
fields (`AI_EXTRACT.file`, `AI_EMBED.input_file`, `AI_SIMILARITY.input1_file`
and `input2_file`, `AI_PARSE_DOCUMENT.file`), which are spliced into the query
text verbatim, unescaped and unquoted. -/
theorem valueEscaperUsage_amended :
    (∀ fn : String, ∀ p : AiCompletePayload,
      occursIn (toSqlString p.model) (buildAiCompleteSql fn p)
      ∧ occursIn (toSqlString p.prompt) (buildAiCompleteSql fn p)) ∧
    (∀ fn m pr : String, ∀ mp : JsObj, ∀ rf : Option JsObj, ∀ sd : Option Bool,
      0 < mp.length →
      occursIn (toSqlString (Json.stringify (.obj mp)))
        (buildAiCompleteSql fn ⟨m, pr, some mp, rf, sd⟩)) ∧
    (∀ fn m pr : String, ∀ mp : Option JsObj, ∀ rf : JsObj, ∀ sd : Option Bool,
      occursIn (toSqlString (Json.stringify (.obj rf)))
        (buildAiCompleteSql fn ⟨m, pr, mp, some rf, sd⟩)) ∧
    (∀ fn t : String, ∀ rf : Json, t ≠ "" →
      occursIn (toSqlString t) (buildAiExtractSql fn ⟨some t, none, rf⟩)) ∧
    (∀ fn : String, ∀ p : AiExtractPayload,
      occursIn (toSqlString (Json.stringify p.responseFormat)) (buildAiExtractSql fn p)) ∧
    (∀ fn f : String, ∀ rf : Json, f ≠ "" →
      occursIn f (buildAiExtractSql fn ⟨none, some f, rf⟩)) ∧
    (∀ fn : String, ∀ p : AiSentimentPayload,
      occursIn (toSqlString p.text) (buildAiSentimentSql fn p)) ∧
    (∀ fn t : String, ∀ cats : List String, 0 < cats.length →
      occursIn (toSqlString (Json.stringify (.arr (cats.map Json.str))))
        (buildAiSentimentSql fn ⟨t, some cats⟩)) ∧
    (∀ fn s : String, ∀ cats : List CatEntry, ∀ cfg : Option JsObj,
      occursIn (toSqlString s) (buildAiClassifySql fn ⟨.strInput s, cats, cfg⟩)) ∧
    (∀ fn : String, ∀ p : AiClassifyPayload,
      occursIn (toSqlString (Json.stringify (.arr (p.categories.map CatEntry.toJson))))
        (buildAiClassifySql fn p)) ∧
    (∀ fn : String, ∀ p : AiCountTokensPayload,
      occursIn (toSqlString p.functionName) (buildAiCountTokensSql fn p)
      ∧ occursIn (toSqlString p.inputText) (buildAiCountTokensSql fn p)) ∧
    (∀ fn ft it m : String, ∀ cs : Option (List Json), m ≠ "" →
      occursIn (toSqlString m) (buildAiCountTokensSql fn ⟨ft, it, some m, cs⟩)) ∧
    (∀ fn : String, ∀ p : AiEmbedPayload,
      occursIn (toSqlString p.model) (buildAiEmbedSql fn p)) ∧
    (∀ fn m i : String, occursIn (toSqlString i) (buildAiEmbedSql fn ⟨m, i, none⟩)) ∧
    (∀ fn m i f : String, f ≠ "" → occursIn f (buildAiEmbedSql fn ⟨m, i, some f⟩)) ∧
    (∀ fn i1 i2 : String, ∀ cfg : Option JsObj,
      occursIn (toSqlString i1) (buildAiSimilaritySql fn ⟨i1, i2, none, none, cfg⟩)
      ∧ occursIn (toSqlString i2) (buildAiSimilaritySql fn ⟨i1, i2, none, none, cfg⟩)) ∧
    (∀ fn i1 i2 f1 f2 : String, ∀ cfg : Option JsObj, f1 ≠ "" → f2 ≠ "" →
      occursIn f1 (buildAiSimilaritySql fn ⟨i1, i2, some f1, some f2, cfg⟩)
      ∧ occursIn f2 (buildAiSimilaritySql fn ⟨i1, i2, some f1, some f2, cfg⟩)) ∧
    (∀ fn : String, ∀ p : AiParseDocumentPayload,
      occursIn p.file (buildAiParseDocumentSql fn p)) ∧
    (∀ fn f : String, ∀ ob : JsObj,
      occursIn (toSqlString (Json.stringify (.obj ob)))
        (buildAiParseDocumentSql fn ⟨f, some ob⟩)) := by
  refine ⟨?_, ?_, ?_, ?_, ?_, ?_, ?_, ?_, ?_, ?_, ?_, ?_, ?_, ?_, ?_, ?_, ?_, ?_, ?_⟩
  · intro fn p
    constructor
    · exact occursIn_join_build _ _ _ _ _ (mem_completeSqlArgs_model p)
        (occursIn_appendL _ _ _ (occursIn_self _))
    · exact occursIn_join_build _ _ _ _ _ (mem_completeSqlArgs_prompt p)
        (occursIn_appendL _ _ _ (occursIn_self _))
  · intro fn m pr mp rf sd h
    refine occursIn_join_build _ _ _
      ("model_parameters => PARSE_JSON(" ++ toSqlString (Json.stringify (.obj mp)) ++ ")")
      _ ?_ ?_
    · unfold completeSqlArgs
      refine List.mem_append_left _ (List.mem_append_left _ (List.mem_append_right _ ?_))
      simp [h]
    · exact occursIn_appendR _ _ _ (occursIn_appendL _ _ _ (occursIn_self _))
  · intro fn m pr mp rf sd
    refine occursIn_join_build _ _ _
      ("response_format => PARSE_JSON(" ++ toSqlString (Json.stringify (.obj rf)) ++ ")")
      _ ?_ ?_
    · unfold completeSqlArgs
      refine List.mem_append_left _ (List.mem_append_right _ ?_)
      simp
    · exact occursIn_appendR _ _ _ (occursIn_appendL _ _ _ (occursIn_self _))
  · intro fn t rf ht
    refine occursIn_join_build _ _ _ ("text => " ++ toSqlString t) _ ?_ ?_
    · unfold extractSqlArgs
      refine List.mem_append_left _ (List.mem_append_left _ ?_)
      simp [ht]
    · exact occursIn_appendL _ _ _ (occursIn_self _)
  · intro fn p
    refine occursIn_join_build _ _ _
      ("responseFormat => PARSE_JSON(" ++ toSqlString (Json.stringify p.responseFormat) ++ ")")
      _ ?_ ?_
    · unfold extractSqlArgs
      exact List.mem_append_right _ (List.mem_cons_self _ _)
    · exact occursIn_appendR _ _ _ (occursIn_appendL _ _ _ (occursIn_self _))
  · intro fn f rf hf
    refine occursIn_join_build _ _ _ ("file => " ++ f) _ ?_ ?_
    · unfold extractSqlArgs
      refine List.mem_append_left _ (List.mem_append_right _ ?_)
      simp [hf]
    · exact occursIn_appendL _ _ _ (occursIn_self _)
  · intro fn p
    obtain ⟨t, cats⟩ := p
    cases cats with
    | none =>
      exact occursIn_parts _ ("select " ++ fn ++ "(") (") as response") _
        (by simp [buildAiSentimentSql, String.append_assoc])
    | some l =>
      by_cases hl : l.length > 0
      · refine occursIn_parts _ ("select " ++ fn ++ "(")
          (", PARSE_JSON(" ++ toSqlString (Json.stringify (.arr (l.map Json.str)))
            ++ ")) as response") _ ?_
        simp [buildAiSentimentSql, hl, String.append_assoc]
      · exact occursIn_parts _ ("select " ++ fn ++ "(") (") as response") _
          (by simp [buildAiSentimentSql, hl, String.append_assoc])
  · intro fn t cats h
    refine occursIn_parts _
      ("select " ++ fn ++ "(" ++ toSqlString t ++ ", PARSE_JSON(") (")) as response") _ ?_
    simp [buildAiSentimentSql, h, String.append_assoc]
  · intro fn s cats cfg
    refine occursIn_join_build _ _ _ ("input => " ++ toSqlString s) _ ?_ ?_
    · unfold classifySqlArgs
      exact List.mem_append_left _ (List.mem_append_left _ (List.mem_cons_self _ _))
    · exact occursIn_appendL _ _ _ (occursIn_self _)
  · intro fn p
    refine occursIn_join_build _ _ _
      ("list_of_categories => PARSE_JSON("
        ++ toSqlString (Json.stringify (.arr (p.categories.map CatEntry.toJson))) ++ ")") _ ?_ ?_
    · unfold classifySqlArgs
      exact List.mem_append_left _ (List.mem_append_right _ (List.mem_cons_self _ _))
    · exact occursIn_appendR _ _ _ (occursIn_appendL _ _ _ (occursIn_self _))
  · intro fn p
    obtain ⟨ft, it, mn, cs⟩ := p
    cases mn with
    | some m =>
      by_cases hm : m = ""
      · cases cs with
        | some l =>
          constructor
          · refine occursIn_parts _ ("select " ++ fn ++ "(")
              (", " ++ toSqlString it ++ ", PARSE_JSON("
                ++ toSqlString (Json.stringify (.arr l)) ++ ")) as response") _ ?_
            simp [buildAiCountTokensSql, buildAiCountTokensSqlTail, hm, String.append_assoc]
          · refine occursIn_parts _ ("select " ++ fn ++ "(" ++ toSqlString ft ++ ", ")
              (", PARSE_JSON(" ++ toSqlString (Json.stringify (.arr l)) ++ ")) as response") _ ?_
            simp [buildAiCountTokensSql, buildAiCountTokensSqlTail, hm, String.append_assoc]
        | none =>
          constructor
          · refine occursIn_parts _ ("select " ++ fn ++ "(")
              (", " ++ toSqlString it ++ ") as response") _ ?_
            simp [buildAiCountTokensSql, buildAiCountTokensSqlTail, hm, String.append_assoc]
          · refine occursIn_parts _ ("select " ++ fn ++ "(" ++ toSqlString ft ++ ", ")
              (") as response") _ ?_
            simp [buildAiCountTokensSql, buildAiCountTokensSqlTail, hm, String.append_assoc]
      · constructor
        · refine occursIn_parts _ ("select " ++ fn ++ "(")
            (", " ++ toSqlString m ++ ", " ++ toSqlString it ++ ") as response") _ ?_
          simp [buildAiCountTokensSql, hm, String.append_assoc]
        · refine occursIn_parts _
            ("select " ++ fn ++ "(" ++ toSqlString ft ++ ", " ++ toSqlString m ++ ", ")
            (") as response") _ ?_
          simp [buildAiCountTokensSql, hm, String.append_assoc]
    | none =>
      cases cs with
      | some l =>
        constructor
        · refine occursIn_parts _ ("select " ++ fn ++ "(")
            (", " ++ toSqlString it ++ ", PARSE_JSON("
              ++ toSqlString (Json.stringify (.arr l)) ++ ")) as response") _ ?_
          simp [buildAiCountTokensSql, buildAiCountTokensSqlTail, String.append_assoc]
        · refine occursIn_parts _ ("select " ++ fn ++ "(" ++ toSqlString ft ++ ", ")
            (", PARSE_JSON(" ++ toSqlString (Json.stringify (.arr l)) ++ ")) as response") _ ?_
          simp [buildAiCountTokensSql, buildAiCountTokensSqlTail, String.append_assoc]
      | none =>
        constructor
        · refine occursIn_parts _ ("select " ++ fn ++ "(")
            (", " ++ toSqlString it ++ ") as response") _ ?_
          simp [buildAiCountTokensSql, buildAiCountTokensSqlTail, String.append_assoc]
        · refine occursIn_parts _ ("select " ++ fn ++ "(" ++ toSqlString ft ++ ", ")
            (") as response") _ ?_
          simp [buildAiCountTokensSql, buildAiCountTokensSqlTail, String.append_assoc]
  · intro fn ft it m cs hm
    refine occursIn_parts _ ("select " ++ fn ++ "(" ++ toSqlString ft ++ ", ")
      (", " ++ toSqlString it ++ ") as response") _ ?_
    simp [buildAiCountTokensSql, hm, String.append_assoc]
  · intro fn p
    obtain ⟨m, i, f⟩ := p
    cases f with
    | some f0 =>
      by_cases hf : f0 = ""
      · exact occursIn_parts _ ("select " ++ fn ++ "(")
          (", " ++ toSqlString i ++ ") as response") _
          (by simp [buildAiEmbedSql, hf, String.append_assoc])
      · exact occursIn_parts _ ("select " ++ fn ++ "(") (", " ++ f0 ++ ") as response") _
          (by simp [buildAiEmbedSql, hf, String.append_assoc])
    | none =>
      exact occursIn_parts _ ("select " ++ fn ++ "(")
        (", " ++ toSqlString i ++ ") as response") _
        (by simp [buildAiEmbedSql, String.append_assoc])
  · intro fn m i
    exact occursIn_parts _ ("select " ++ fn ++ "(" ++ toSqlString m ++ ", ")
      (") as response") _ (by simp [buildAiEmbedSql, String.append_assoc])
  · intro fn m i f hf
    exact occursIn_parts _ ("select " ++ fn ++ "(" ++ toSqlString m ++ ", ")
      (") as response") _ (by simp [buildAiEmbedSql, hf, String.append_assoc])
  · intro fn i1 i2 cfg
    constructor
    · refine occursIn_join_build _ _ _ (toSqlString i1) _ ?_
        (occursIn_self _)
      unfold similaritySqlArgs
      exact List.mem_append_left _ (List.mem_cons_self _ _)
    · refine occursIn_join_build _ _ _ (toSqlString i2) _ ?_
        (occursIn_self _)
      unfold similaritySqlArgs
      exact List.mem_append_left _ (List.mem_cons_of_mem _ (List.mem_cons_self _ _))
  · intro fn i1 i2 f1 f2 cfg hf1 hf2
    constructor
    · refine occursIn_join_build _ _ _ f1 _ ?_ (occursIn_self _)
      unfold similaritySqlArgs
      refine List.mem_append_left _ ?_
      simp [hf1]
    · refine occursIn_join_build _ _ _ f2 _ ?_ (occursIn_self _)
      unfold similaritySqlArgs
      refine List.mem_append_left _ ?_
      simp [hf2]
  · intro fn p
    refine occursIn_join_build _ _ _ ("file => " ++ p.file) _ ?_
      (occursIn_appendL _ _ _ (occursIn_self _))
    unfold parseDocumentSqlArgs
    exact List.mem_append_left _ (List.mem_cons_self _ _)
  · intro fn f ob
    refine occursIn_join_build _ _ _
      ("options => PARSE_JSON(" ++ toSqlString (Json.stringify (.obj ob)) ++ ")") _ ?_
      (occursIn_appendR _ _ _ (occursIn_appendL _ _ _ (occursIn_self _)))
    unfold parseDocumentSqlArgs
    refine List.mem_append_right _ ?_
    simp

end AiSql

namespace AiSql

/-- Witness for C1 (amended): concrete instantiations discharging the
non-emptiness hypotheses of the escaped and verbatim embedding facts. -/
theorem valueEscaperUsage_witness :
    occursIn (toSqlString (Json.stringify (.obj [("temperature", .num 0)])))
      (buildAiCompleteSql "AI_COMPLETE" ⟨"m", "p", some [("temperature", .num 0)], none, none⟩)
    ∧ occursIn (toSqlString "hello") (buildAiExtractSql "AI_EXTRACT" ⟨some "hello", none, .null⟩)
    ∧ occursIn "@docs/a.pdf" (buildAiExtractSql "AI_EXTRACT" ⟨none, some "@docs/a.pdf", .null⟩)
    ∧ occursIn (toSqlString (Json.stringify (.arr (["pos"].map Json.str))))
        (buildAiSentimentSql "AI_SENTIMENT" ⟨"t", some ["pos"]⟩)
    ∧ occursIn (toSqlString "mistral-7b")
        (buildAiCountTokensSql "AI_COUNT_TOKENS" ⟨"ai_complete", "txt", some "mistral-7b", none⟩)
    ∧ occursIn "@st/f1"
        (buildAiSimilaritySql "AI_SIMILARITY" ⟨"", "", some "@st/f1", some "@st/f2", none⟩)
    ∧ occursIn "@e/in" (buildAiEmbedSql "AI_EMBED" ⟨"e5", "", some "@e/in"⟩) :=
  ⟨valueEscaperUsage_amended.2.1 "AI_COMPLETE" "m" "p" [("temperature", .num 0)] none none
      (by decide),
   valueEscaperUsage_amended.2.2.2.1 "AI_EXTRACT" "hello" .null (by decide),
   valueEscaperUsage_amended.2.2.2.2.2.1 "AI_EXTRACT" "@docs/a.pdf" .null (by decide),
   valueEscaperUsage_amended.2.2.2.2.2.2.2.1 "AI_SENTIMENT" "t" ["pos"] (by decide),
   valueEscaperUsage_amended.2.2.2.2.2.2.2.2.2.2.2.1 "AI_COUNT_TOKENS" "ai_complete" "txt"
      "mistral-7b" none (by decide),
   (valueEscaperUsage_amended.2.2.2.2.2.2.2.2.2.2.2.2.2.2.2.2.1 "AI_SIMILARITY" "" ""
      "@st/f1" "@st/f2" none (by decide) (by decide)).1,
   valueEscaperUsage_amended.2.2.2.2.2.2.2.2.2.2.2.2.2.2.1 "AI_EMBED" "e5" "" "@e/in"
      (by decide)⟩

/-- Counterexample for C1 as stated: an AI_EMBED payload that passes
normalization whose `input_file` value (containing a single quote) is spliced
into the query text verbatim — it does not appear as an escaped single-quoted
literal. -/
theorem valueEscaperUsage_counterexample :
    parseAiEmbedArgs [("model", .str "e5"), ("input_file", .str "@stage/doc'1.pdf")]
      = .ok ⟨"e5", "", some "@stage/doc'1.pdf"⟩
    ∧ occursIn "@stage/doc'1.pdf"
        (buildAiEmbedSql "AI_EMBED" ⟨"e5", "", some "@stage/doc'1.pdf"⟩)
    ∧ ¬ occursIn (toSqlString "@stage/doc'1.pdf")
        (buildAiEmbedSql "AI_EMBED" ⟨"e5", "", some "@stage/doc'1.pdf"⟩) :=
  ⟨rfl, by decide, by decide⟩

end AiSql

namespace AiSql

theorem exPure {ε α : Type} (a : α) : (pure a : Except ε α) = .ok a := rfl

theorem exThrow {ε α : Type} (e : ε) : (throw e : Except ε α) = .error e := rfl

theorem exBindOk {ε α β : Type} (a : α) (f : α → Except ε β) :
    ((.ok a : Except ε α) >>= f) = f a := rfl

theorem exBindErr {ε α β : Type} (e : ε) (f : α → Except ε β) :
    ((.error e : Except ε α) >>= f) = .error e := rfl

/-- Counterexample for C2 as stated: supplying both `model_parameters` and
`modelParameters` to AI_COMPLETE does not fail — the two bags are merged. -/
theorem aliasConflict_counterexample :
    parseAiCompleteArgs [("model", .str "m"), ("prompt", .str "p"),
      ("model_parameters", .obj [("temperature", .num 1)]),
      ("modelParameters", .obj [("top_p", .num 2)])]
    = .ok ⟨"m", "p", some [("temperature", .num 1), ("top_p", .num 2)], none, none⟩ := rfl

/-- Claim C2 (amended): the alias groups `response_format`/`responseFormat`,
`show_details`/`showDetails`, `list_of_categories`/`categories`,
`model_name`/`modelName`, `file`/`file_object` and `config_object`/`config`
each fail with the conflict error when both spellings are supplied; the
AI_COMPLETE group `model_parameters`/`modelParameters` is the exception — both
spellings are accepted and merged into one bag. -/
theorem aliasConflict_amended :
    (∀ a b : Json, resolveResponseFormat (some a) (some b)
      = .error "Provide only one of response_format or responseFormat.") ∧
    (∀ a b : Json, resolveShowDetails (some a) (some b)
      = .error "Provide only one of show_details or showDetails.") ∧
    (∀ c1 c2 : Json, parseAiClassifyArgs
        [("input", .str "x"), ("list_of_categories", c1), ("categories", c2)]
      = .error "Provide only one of list_of_categories or categories.") ∧
    (∀ m1 m2 : Json, parseAiCountTokensArgs
        [("function_name", .str "AI_COMPLETE"), ("input_text", .str "hi"),
         ("model_name", m1), ("modelName", m2)]
      = .error "Provide only one of model_name or modelName.") ∧
    (∀ f1 f2 : Json, parseAiParseDocumentArgs [("file", f1), ("file_object", f2)]
      = .error "Provide only one of file or file_object.") ∧
    (∀ c1 c2 : Json, parseAiSimilarityArgs
        [("input1", .str "a"), ("input2", .str "b"), ("config_object", c1), ("config", c2)]
      = .error "Provide only one of config_object or config.") ∧
    (∀ mp1 mp2 : JsObj, ∃ r,
      mergeModelParameters (some (.obj mp1)) (some (.obj mp2)) none [] = .ok r) := by
  refine ⟨fun a b => rfl, fun a b => rfl, fun c1 c2 => rfl, fun m1 m2 => rfl,
    fun f1 f2 => rfl, fun c1 c2 => rfl, fun mp1 mp2 => ⟨_, rfl⟩⟩

end AiSql

namespace AiSql

/-- The trimmed label a normalized AI_CLASSIFY category is keyed on. -/
def catLabel : CatEntry → String
  | .plain s => s
  | .labeled l _ => l

theorem classifyCats_invariant (lbl : String) :
    ∀ (entries : List Json) (i : Nat) (seen : List String) (res : List CatEntry),
      classifyCats lbl entries i seen = .ok res →
      (res.map catLabel).Nodup ∧ ∀ x ∈ res.map catLabel, seen.contains x = false := by
  intro entries
  induction entries with
  | nil =>
    intro i seen res h
    simp only [classifyCats] at h
    cases h
    simp
  | cons e t ih =>
    intro i seen res h
    cases e with
    | str s =>
      simp only [classifyCats] at h
      by_cases h1 : jsTrim s = ""
      · rw [if_pos h1] at h; cases h
      rw [if_neg h1] at h
      by_cases h2 : seen.contains (jsTrim s)
      · rw [if_pos h2] at h
        exact ih _ _ _ h
      rw [if_neg h2] at h
      cases hr : classifyCats lbl t (i + 1) (jsTrim s :: seen) with
      | error e0 => rw [hr, exBindErr] at h; cases h
      | ok r =>
        rw [hr, exBindOk, exPure] at h
        cases h
        obtain ⟨hnd, hns⟩ := ih _ _ _ hr
        refine ⟨?_, ?_⟩
        · simp only [List.map_cons, catLabel, List.nodup_cons]
          refine ⟨?_, hnd⟩
          intro hmem
          have hcon := hns _ hmem
          simp at hcon
        · intro x hx
          simp only [List.map_cons, catLabel] at hx
          rcases List.mem_cons.mp hx with rfl | hx'
          · simpa using h2
          · have hcon := hns _ hx'
            simp only [List.contains_cons, Bool.or_eq_false_iff] at hcon
            exact hcon.2
    | obj entry =>
      simp only [classifyCats] at h
      cases hl : getField entry "label" with
      | none => rw [hl] at h; cases h
      | some v =>
        rw [hl] at h
        cases v with
        | str rawLabel =>
          dsimp only at h
          by_cases hb : jsTrim rawLabel = ""
          · rw [if_pos hb] at h; cases h
          rw [if_neg hb] at h
          by_cases hsn : seen.contains (jsTrim rawLabel)
          · rw [if_pos hsn] at h
            exact ih _ _ _ h
          rw [if_neg hsn] at h
          cases hd : getField entry "description" with
          | none =>
            rw [hd] at h
            dsimp only at h
            cases hr : classifyCats lbl t (i + 1) (jsTrim rawLabel :: seen) with
            | error e0 => rw [hr, exBindErr] at h; cases h
            | ok r =>
              rw [hr, exBindOk, exPure] at h
              cases h
              obtain ⟨hnd, hns⟩ := ih _ _ _ hr
              refine ⟨?_, ?_⟩
              · simp only [List.map_cons, catLabel, List.nodup_cons]
                refine ⟨?_, hnd⟩
                intro hmem
                have hcon := hns _ hmem
                simp at hcon
              · intro x hx
                simp only [List.map_cons, catLabel] at hx
                rcases List.mem_cons.mp hx with rfl | hx'
                · simpa using hsn
                · have hcon := hns _ hx'
                  simp only [List.contains_cons, Bool.or_eq_false_iff] at hcon
                  exact hcon.2
          | some w =>
            rw [hd] at h
            cases w with
            | str d =>
              dsimp only at h
              cases hr : classifyCats lbl t (i + 1) (jsTrim rawLabel :: seen) with
              | error e0 => rw [hr, exBindErr] at h; cases h
              | ok r =>
                rw [hr, exBindOk, exPure] at h
                cases h
                obtain ⟨hnd, hns⟩ := ih _ _ _ hr
                refine ⟨?_, ?_⟩
                · simp only [List.map_cons, catLabel, List.nodup_cons]
                  refine ⟨?_, hnd⟩
                  intro hmem
                  have hcon := hns _ hmem
                  simp at hcon
                · intro x hx
                  simp only [List.map_cons, catLabel] at hx
                  rcases List.mem_cons.mp hx with rfl | hx'
                  · simpa using hsn
                  · have hcon := hns _ hx'
                    simp only [List.contains_cons, Bool.or_eq_false_iff] at hcon
                    exact hcon.2
            | null => cases h
            | bool b => cases h
            | num n => cases h
            | arr a => cases h
            | obj o => cases h
        | null => cases h
        | bool b => cases h
        | num n => cases h
        | arr a => cases h
        | obj o => cases h
    | null => cases h
    | bool b => cases h
    | num n => cases h
    | arr a => cases h

/-- Counterexample for C3 as stated: AI_SENTIMENT normalization keeps a
duplicated category — duplicates are not dropped. -/
theorem sentimentNoDedup_counterexample :
    parseAiSentimentArgs [("text", .str "x"), ("categories", .arr [.str "a", .str "a"])]
      = .ok ⟨"x", some ["a", "a"]⟩ := rfl

/-- Claim C3 (amended): AI_CLASSIFY categories are de-duplicated by trimmed
label before bounds checking, duplicates silently skipped; AI_SENTIMENT
categories are NOT de-duplicated — duplicate entries are kept (and count
toward the 10-item bound). -/
theorem dedupPolicy_amended :
    (∀ v : Option Json, ∀ lbl : String, ∀ res : List CatEntry,
      normalizeClassifyCategories v lbl = .ok res → (res.map catLabel).Nodup) ∧
    (∀ lbl s : String, ∀ t : List Json, ∀ i : Nat, ∀ seen : List String,
      jsTrim s ≠ "" → seen.contains (jsTrim s) = true →
      classifyCats lbl (.str s :: t) i seen = classifyCats lbl t (i + 1) seen) ∧
    (∀ txt c : String, jsTrim txt ≠ "" → jsTrim c ≠ "" → (jsTrim c).length ≤ 30 →
      parseAiSentimentArgs [("text", .str txt), ("categories", .arr [.str c, .str c])]
        = .ok ⟨txt, some [jsTrim c, jsTrim c]⟩) := by
  refine ⟨?_, ?_, ?_⟩
  · intro v lbl res h
    rcases v with _ | j
    · simp [normalizeClassifyCategories] at h
    · cases j with
      | arr entries =>
        simp only [normalizeClassifyCategories] at h
        by_cases he : entries.length = 0
        · rw [if_pos he] at h; cases h
        · rw [if_neg he] at h
          exact (classifyCats_invariant lbl entries 0 [] res h).1
      | null => simp [normalizeClassifyCategories] at h
      | bool b => simp [normalizeClassifyCategories] at h
      | num n => simp [normalizeClassifyCategories] at h
      | str s => simp [normalizeClassifyCategories] at h
      | obj o => simp [normalizeClassifyCategories] at h
  · intro lbl s t i seen h1 h2
    simp only [classifyCats]
    rw [if_neg h1, if_pos h2]
  · intro txt c htxt hc hlen
    have h30 : ¬ ((jsTrim c).length > 30) := by omega
    have hrest : keysRemoved ["text", "categories"]
        [("text", Json.str txt), ("categories", Json.arr [Json.str c, Json.str c])] = [] := rfl
    have htf : getField
        [("text", Json.str txt), ("categories", Json.arr [Json.str c, Json.str c])] "text"
        = some (Json.str txt) := rfl
    have hcf : getField
        [("text", Json.str txt), ("categories", Json.arr [Json.str c, Json.str c])] "categories"
        = some (Json.arr [Json.str c, Json.str c]) := rfl
    simp only [parseAiSentimentArgs, hrest, htf, hcf]
    simp [requireNonEmptyString, sentimentCats, htxt, hc, h30, exBindOk, exPure, exThrow]

/-- Witness for C3 (amended): concrete de-duplicated classify categories, a
concrete silent duplicate skip, and a concrete kept sentiment duplicate. -/
theorem dedupPolicy_witness :
    (([CatEntry.plain "a", CatEntry.plain "b"].map catLabel).Nodup)
    ∧ (classifyCats "categories" [.str "a"] 0 ["a"]
        = classifyCats "categories" [] 1 ["a"])
    ∧ (parseAiSentimentArgs [("text", .str "x"), ("categories", .arr [.str "a", .str "a"])]
        = .ok ⟨"x", some [jsTrim "a", jsTrim "a"]⟩) :=
  ⟨dedupPolicy_amended.1 (some (.arr [.str "a", .str "a", .str "b"])) "categories"
      [CatEntry.plain "a", CatEntry.plain "b"] rfl,
   dedupPolicy_amended.2.1 "categories" "a" [] 0 ["a"] (by decide) (by decide),
   dedupPolicy_amended.2.2 "x" "a" (by decide) (by decide) (by decide)⟩

end AiSql

namespace AiSql

theorem sentimentCats_ok : ∀ (cats : List String) (i : Nat),
    (∀ s ∈ cats, jsTrim s ≠ "" ∧ (jsTrim s).length ≤ 30) →
    sentimentCats (cats.map Json.str) i = .ok (cats.map jsTrim) := by
  intro cats
  induction cats with
  | nil => intro i _; rfl
  | cons a t ih =>
    intro i hv
    obtain ⟨ha1, ha2⟩ := hv a (List.mem_cons_self a t)
    have h30 : ¬ ((jsTrim a).length > 30) := by omega
    simp only [List.map_cons, sentimentCats]
    rw [if_neg ha1, if_neg h30, ih (i + 1) (fun s hs => hv s (List.mem_cons_of_mem _ hs)),
      exBindOk, exPure]

theorem sentimentCats_long : ∀ (cats : List String) (i : Nat),
    (∀ s ∈ cats, jsTrim s ≠ "") → (∃ s ∈ cats, 30 < (jsTrim s).length) →
    ∃ j : Nat, sentimentCats (cats.map Json.str) i
      = .error ("AI_SENTIMENT categories[" ++ toString j ++ "] exceeds 30 characters.") := by
  intro cats
  induction cats with
  | nil =>
    intro i _ hex
    rcases hex with ⟨s, hs, _⟩
    exact absurd hs (List.not_mem_nil s)
  | cons a t ih =>
    intro i hnb hex
    have ha1 := hnb a (List.mem_cons_self a t)
    by_cases ha30 : (jsTrim a).length > 30
    · refine ⟨i, ?_⟩
      simp only [List.map_cons, sentimentCats]
      rw [if_neg ha1, if_pos ha30]
    · have hex' : ∃ s ∈ t, 30 < (jsTrim s).length := by
        rcases hex with ⟨s, hs, hl⟩
        rcases List.mem_cons.mp hs with rfl | hst
        · exact absurd hl ha30
        · exact ⟨s, hst, hl⟩
      obtain ⟨j, hj⟩ := ih (i + 1) (fun s hs => hnb s (List.mem_cons_of_mem _ hs)) hex'
      refine ⟨j, ?_⟩
      simp only [List.map_cons, sentimentCats]
      rw [if_neg ha1, if_neg ha30, hj, exBindErr]

/-- Claim C6: AI_SENTIMENT categories bounds — a list of exactly 10 entries,
each non-blank and at most 30 characters after trimming, succeeds; 11 or more
entries fail with the 10-item bounds error; an entry whose trimmed length
exceeds 30 characters fails with the 30-character bounds error. -/
theorem sentimentCategoryBounds :
    (∀ txt : String, ∀ cats : List String,
      jsTrim txt ≠ "" → cats.length = 10 →
      (∀ s ∈ cats, jsTrim s ≠ "" ∧ (jsTrim s).length ≤ 30) →
      parseAiSentimentArgs [("text", .str txt), ("categories", .arr (cats.map Json.str))]
        = .ok ⟨txt, some (cats.map jsTrim)⟩) ∧
    (∀ txt : String, ∀ cats : List Json, jsTrim txt ≠ "" → 11 ≤ cats.length →
      parseAiSentimentArgs [("text", .str txt), ("categories", .arr cats)]
        = .error "AI_SENTIMENT categories supports up to 10 items.") ∧
    (∀ txt : String, ∀ cats : List String, jsTrim txt ≠ "" →
      1 ≤ cats.length → cats.length ≤ 10 →
      (∀ s ∈ cats, jsTrim s ≠ "") →
      (∃ s ∈ cats, 30 < (jsTrim s).length) →
      ∃ i : Nat,
        parseAiSentimentArgs [("text", .str txt), ("categories", .arr (cats.map Json.str))]
          = .error ("AI_SENTIMENT categories[" ++ toString i ++ "] exceeds 30 characters.")) := by
  refine ⟨?_, ?_, ?_⟩
  · intro txt cats htxt hlen hv
    have hrest : keysRemoved ["text", "categories"]
        [("text", Json.str txt), ("categories", Json.arr (cats.map Json.str))] = [] := rfl
    have htf : getField
        [("text", Json.str txt), ("categories", Json.arr (cats.map Json.str))] "text"
        = some (Json.str txt) := rfl
    have hcf : getField
        [("text", Json.str txt), ("categories", Json.arr (cats.map Json.str))] "categories"
        = some (Json.arr (cats.map Json.str)) := rfl
    have hml : (cats.map Json.str).length = 10 := by rw [List.length_map, hlen]
    simp only [parseAiSentimentArgs, hrest, htf, hcf]
    simp [requireNonEmptyString, htxt, hml, sentimentCats_ok cats 0 hv, exBindOk, exPure]
  · intro txt cats htxt hlen
    have hrest : keysRemoved ["text", "categories"]
        [("text", Json.str txt), ("categories", Json.arr cats)] = [] := rfl
    have htf : getField [("text", Json.str txt), ("categories", Json.arr cats)] "text"
        = some (Json.str txt) := rfl
    have hcf : getField [("text", Json.str txt), ("categories", Json.arr cats)] "categories"
        = some (Json.arr cats) := rfl
    have h0 : ¬ (cats.length = 0) := by omega
    have h10 : cats.length > 10 := by omega
    simp only [parseAiSentimentArgs, hrest, htf, hcf]
    simp [requireNonEmptyString, htxt, h0, h10, exBindOk, exThrow]
  · intro txt cats htxt hlen1 hlen10 hnb hex
    obtain ⟨j, hj⟩ := sentimentCats_long cats 0 hnb hex
    refine ⟨j, ?_⟩
    have hrest : keysRemoved ["text", "categories"]
        [("text", Json.str txt), ("categories", Json.arr (cats.map Json.str))] = [] := rfl
    have htf : getField
        [("text", Json.str txt), ("categories", Json.arr (cats.map Json.str))] "text"
        = some (Json.str txt) := rfl
    have hcf : getField
        [("text", Json.str txt), ("categories", Json.arr (cats.map Json.str))] "categories"
        = some (Json.arr (cats.map Json.str)) := rfl
    have h0 : ¬ ((cats.map Json.str).length = 0) := by
      rw [List.length_map]; omega
    have h10 : ¬ ((cats.map Json.str).length > 10) := by
      rw [List.length_map]; omega
    have hne : ¬ (cats = []) := by
      intro h
      rw [h] at hlen1
      simp at hlen1
    have h10b : ¬ (10 < cats.length) := by omega
    simp only [parseAiSentimentArgs, hrest, htf, hcf]
    simp [requireNonEmptyString, htxt, h0, h10, hne, h10b, hj, exBindOk, exBindErr, exThrow]

/-- Witness for C6: ten short labels succeed; eleven entries hit the 10-item
bound; a 31-character label hits the 30-character bound. -/
theorem sentimentCategoryBounds_witness :
    (parseAiSentimentArgs [("text", .str "x"), ("categories",
        .arr (["a1", "a2", "a3", "a4", "a5", "a6", "a7", "a8", "a9", "a10"].map Json.str))]
      = .ok ⟨"x", some (["a1", "a2", "a3", "a4", "a5", "a6", "a7", "a8", "a9", "a10"].map jsTrim)⟩)
    ∧ (parseAiSentimentArgs [("text", .str "x"), ("categories",
        .arr [.null, .null, .null, .null, .null, .null, .null, .null, .null, .null, .null])]
      = .error "AI_SENTIMENT categories supports up to 10 items.")
    ∧ (∃ i : Nat, parseAiSentimentArgs [("text", .str "x"), ("categories",
        .arr (["ok", "abcdefghijklmnopqrstuvwxyzabcde"].map Json.str))]
      = .error ("AI_SENTIMENT categories[" ++ toString i ++ "] exceeds 30 characters.")) :=
  ⟨sentimentCategoryBounds.1 "x" ["a1", "a2", "a3", "a4", "a5", "a6", "a7", "a8", "a9", "a10"]
      (by decide) (by decide) (by decide),
   sentimentCategoryBounds.2.1 "x"
      [.null, .null, .null, .null, .null, .null, .null, .null, .null, .null, .null]
      (by decide) (by decide),
   sentimentCategoryBounds.2.2 "x" ["ok", "abcdefghijklmnopqrstuvwxyzabcde"]
      (by decide) (by decide) (by decide) (by decide) (by decide)⟩

/-- Claim C7: AI_EXTRACT requires exactly one of `text` and `file`: supplying
both fails with the mutual-exclusivity error, supplying neither fails with the
same error. -/
theorem extractMutualExclusivity :
    (∀ t f : String, ∀ rfv : Json,
      parseAiExtractArgs [("text", .str t), ("file", .str f), ("response_format", rfv)]
        = .error "AI_EXTRACT requires either `text` or `file` (but not both).") ∧
    (∀ rfv : Json, parseAiExtractArgs [("response_format", rfv)]
        = .error "AI_EXTRACT requires either `text` or `file` (but not both).") :=
  ⟨fun _ _ _ => rfl, fun _ => rfl⟩

end AiSql

namespace AiSql

/-- Claim C8: AI_CLASSIFY keeps exactly the unique categories of
`["billing","billing","support"]`, and any single-element list (fewer than two
unique entries) fails with the two-unique-minimum bounds error. -/
theorem classifyUniqueCategories :
    (parseAiClassifyArgs [("input", .str "ticket"),
        ("categories", .arr [.str "billing", .str "billing", .str "support"])]
      = .ok ⟨.strInput "ticket", [.plain "billing", .plain "support"], none⟩) ∧
    (∀ inputVal : Json, ∀ s : String, jsTrim s ≠ "" →
      parseAiClassifyArgs [("input", inputVal), ("categories", .arr [.str s])]
        = .error "AI_CLASSIFY requires at least two unique categories.") := by
  refine ⟨rfl, ?_⟩
  intro inputVal s hs
  have hrest : keysRemoved ["input", "list_of_categories", "categories", "config_object",
      "config"] [("input", inputVal), ("categories", Json.arr [Json.str s])] = [] := rfl
  have hif : getField [("input", inputVal), ("categories", Json.arr [Json.str s])] "input"
      = some inputVal := rfl
  have hcf : getField [("input", inputVal), ("categories", Json.arr [Json.str s])] "categories"
      = some (Json.arr [Json.str s]) := rfl
  have hlc : getField [("input", inputVal), ("categories", Json.arr [Json.str s])]
      "list_of_categories" = none := rfl
  have hco : getField [("input", inputVal), ("categories", Json.arr [Json.str s])]
      "config_object" = none := rfl
  have hcg : getField [("input", inputVal), ("categories", Json.arr [Json.str s])]
      "config" = none := rfl
  simp only [parseAiClassifyArgs, hrest, hif, hcf, hlc, hco, hcg]
  simp [jsCoalesce, normalizeClassifyCategories, classifyCats, hs, exBindOk, exBindErr,
    exPure, exThrow]

/-- Witness for C8: a blank-free single-element list fails with the bounds
error even with a null input value. -/
theorem classifyUniqueCategories_witness :
    parseAiClassifyArgs [("input", .null), ("categories", .arr [.str "billing"])]
      = .error "AI_CLASSIFY requires at least two unique categories." :=
  classifyUniqueCategories.2 .null "billing" (by decide)

end AiSql

namespace AiSql

/-- Claim C9: AI_COUNT_TOKENS with `function_name = "AI_COMPLETE"`, a model
name and no categories lower-cases the function name to `ai_complete` and
builds a positional call of exactly three escaped arguments; supplying both
`model_name` and `categories` fails. -/
theorem countTokensModelCall :
    (∀ t m : String, jsTrim t ≠ "" → jsTrim m ≠ "" →
      parseAiCountTokensArgs [("function_name", .str "AI_COMPLETE"),
        ("input_text", .str t), ("model_name", .str m)]
        = .ok ⟨"ai_complete", t, some (jsTrim m), none⟩) ∧
    (∀ fn t m : String, m ≠ "" →
      buildAiCountTokensSql fn ⟨"ai_complete", t, some m, none⟩
        = "select " ++ fn ++ "(" ++ toSqlString "ai_complete" ++ ", " ++ toSqlString m
          ++ ", " ++ toSqlString t ++ ") as response") ∧
    (∀ t m : String, ∀ cs : List Json, jsTrim t ≠ "" → jsTrim m ≠ "" →
      parseAiCountTokensArgs [("function_name", .str "AI_COMPLETE"), ("input_text", .str t),
        ("model_name", .str m), ("categories", .arr cs)]
        = .error "AI_COUNT_TOKENS accepts either model_name or categories, not both.") := by
  refine ⟨?_, ?_, ?_⟩
  · intro t m ht hm
    have hdec : decide (jsTrim m ≠ "") = true := decide_eq_true hm
    have e1 : jsTrim "AI_COMPLETE" = "AI_COMPLETE" := rfl
    have e2 : jsLower "AI_COMPLETE" = "ai_complete" := rfl
    have e3 : jsStartsWith "ai_complete" "ai_" = true := rfl
    simp only [parseAiCountTokensArgs]
    simp [keysRemoved, getField, jsCoalesce, requireTrimmedString, requireNonEmptyString,
      ht, hm, hdec, e1, e2, e3, exBindOk, exBindErr, exPure, exThrow]
  · intro fn t m hm
    simp [buildAiCountTokensSql, hm]
  · intro t m cs ht hm
    have hdec : decide (jsTrim m ≠ "") = true := decide_eq_true hm
    have e1 : jsTrim "AI_COMPLETE" = "AI_COMPLETE" := rfl
    have e2 : jsLower "AI_COMPLETE" = "ai_complete" := rfl
    have e3 : jsStartsWith "ai_complete" "ai_" = true := rfl
    simp only [parseAiCountTokensArgs]
    simp [keysRemoved, getField, jsCoalesce, requireTrimmedString, requireNonEmptyString,
      ht, hm, hdec, e1, e2, e3, exBindOk, exBindErr, exPure, exThrow]

/-- Witness for C9: concrete normalization, three-argument build and
model/categories conflict. -/
theorem countTokensModelCall_witness :
    (parseAiCountTokensArgs [("function_name", .str "AI_COMPLETE"),
        ("input_text", .str "Hello"), ("model_name", .str "mistral-7b")]
      = .ok ⟨"ai_complete", "Hello", some (jsTrim "mistral-7b"), none⟩)
    ∧ (buildAiCountTokensSql "AI_COUNT_TOKENS" ⟨"ai_complete", "Hello", some "mistral-7b", none⟩
      = "select " ++ "AI_COUNT_TOKENS" ++ "(" ++ toSqlString "ai_complete" ++ ", "
        ++ toSqlString "mistral-7b" ++ ", " ++ toSqlString "Hello" ++ ") as response")
    ∧ (parseAiCountTokensArgs [("function_name", .str "AI_COMPLETE"),
        ("input_text", .str "Hello"), ("model_name", .str "mistral-7b"),
        ("categories", .arr [.str "a", .str "b"])]
      = .error "AI_COUNT_TOKENS accepts either model_name or categories, not both.") :=
  ⟨countTokensModelCall.1 "Hello" "mistral-7b" (by decide) (by decide),
   countTokensModelCall.2.1 "AI_COUNT_TOKENS" "Hello" "mistral-7b" (by decide),
   countTokensModelCall.2.2 "Hello" "mistral-7b" [.str "a", .str "b"] (by decide) (by decide)⟩

/-- Claim C10: AI_COMPLETE keeps the prompt exactly as supplied (only required
non-blank after trimming) while the model is trimmed, and the untrimmed prompt
is embedded into the query text as an escaped literal. -/
theorem completePromptVerbatim :
    (∀ m p : String, jsTrim m ≠ "" → jsTrim p ≠ "" →
      parseAiCompleteArgs [("model", .str m), ("prompt", .str p)]
        = .ok ⟨jsTrim m, p, none, none, none⟩) ∧
    (∀ fn m p : String,
      buildAiCompleteSql fn ⟨m, p, none, none, none⟩
        = "select " ++ fn ++ "(" ++ ("model => " ++ toSqlString m) ++ ", "
          ++ ("prompt => " ++ toSqlString p) ++ ") as response") := by
  constructor
  · intro m p hm hp
    simp only [parseAiCompleteArgs]
    simp [keysRemoved, getField, requireTrimmedString, requireNonEmptyString, hm, hp,
      mergeModelParameters, optObjSource, resolveResponseFormat, resolveShowDetails,
      exBindOk, exPure, exThrow]
  · intro fn m p
    simp [buildAiCompleteSql, completeSqlArgs, joinArgs, String.append_assoc]

/-- Witness for C10: a prompt with surrounding spaces survives normalization
unchanged while the model is trimmed. -/
theorem completePromptVerbatim_witness :
    (parseAiCompleteArgs [("model", .str " snowflake-arctic "), ("prompt", .str " Hi ")]
      = .ok ⟨jsTrim " snowflake-arctic ", " Hi ", none, none, none⟩)
    ∧ (buildAiCompleteSql "AI_COMPLETE" ⟨"snowflake-arctic", " Hi ", none, none, none⟩
      = "select " ++ "AI_COMPLETE" ++ "(" ++ ("model => " ++ toSqlString "snowflake-arctic")
        ++ ", " ++ ("prompt => " ++ toSqlString " Hi ") ++ ") as response") :=
  ⟨completePromptVerbatim.1 " snowflake-arctic " " Hi " (by decide) (by decide),
   completePromptVerbatim.2 "AI_COMPLETE" "snowflake-arctic" " Hi "⟩

end AiSql
